import Mathlib

/-
  Verification development for the windows_services_manager repository.

  The repository contains three standalone Python test scripts:
    - TestRestartApp.py: exits with a configurable exit code (default 99)
      after a short fixed loop of timestamped log lines;
    - examples/simple-test-service.py: an infinite heartbeat loop;
    - scripts/examples/test_service.py: an infinite heartbeat loop.

  The process supervisor the spec describes (Start/Wait/Classify/Supervise)
  is not part of the repository; only its test harnesses are. Definitions
  for the supervisor are therefore modelled from the spec and are marked as
  such in their doc comments. Definitions for the three scripts are
  translated directly from the Python source.
-/

/-- Value of a decimal digit character, as in Python int parsing. -/
def digitVal (c : Char) : Nat := c.toNat - 48

/-- Accumulating decimal parse of a character list; fails on a non-digit
and on the empty digit sequence. Models the digit-consuming core of
the Python builtin int() used by TestRestartApp.py line 39. -/
def digitsVal : List Char → Option Nat → Option Nat
  | [], acc => acc
  | c :: cs, acc =>
    if c.isDigit then
      match acc with
      | none => digitsVal cs (some (digitVal c))
      | some n => digitsVal cs (some (n * 10 + digitVal c))
    else none

/-- Decimal integer parse with an optional leading sign, modelling the
Python builtin int() on plain decimal strings: returns none exactly when
Python int() raises ValueError on such inputs. -/
def pyIntOpt (s : String) : Option Int :=
  match s.toList with
  | '-' :: rest => (digitsVal rest none).map (fun n => -(n : Int))
  | '+' :: rest => (digitsVal rest none).map (fun n => (n : Int))
  | l => (digitsVal l none).map (fun n => (n : Int))

namespace TestRestartApp

/-- Log line built by TestRestartApp.py log(): a timestamp in square
brackets followed by the message (source line 30). -/
def logLine (ts msg : String) : String :=
  "[" ++ (ts ++ ("] " ++ msg))

/-- The message printed by iteration i of the main work loop of
TestRestartApp.py (source lines 55-57). -/
def stepLine (i : Nat) (ts : String) : String :=
  logLine ts ("Processing step " ++ (toString i ++ "/5..."))

/-- Exit code computed by TestRestartApp.py main() (source lines 36-42
and 76): default 99; the first command-line argument overrides it when
it parses as an integer, and the ValueError handler keeps 99 otherwise.
The integer parse (the Python builtin int) is passed in as a function. -/
def mainExit (parse : String → Option Int) (args : List String) : Int :=
  match args with
  | [] => 99
  | a :: _ =>
    match parse a with
    | some n => n
    | none => 99

/-- Exit code of TestRestartApp.py as a function of the argument list,
with the decimal model of the Python int() builtin plugged in. -/
def exitOf (args : List String) : Int := mainExit pyIntOpt args

end TestRestartApp

namespace SimpleTestService

/-- Loop condition of the main loop of simple-test-service.py line 31:
the literal True, whatever the counter value. -/
def loopGuard (counter : Nat) : Bool := true

/-- Counter update performed by one iteration of the loop body
(simple-test-service.py line 32). -/
def nextCounter (counter : Nat) : Nat := counter + 1

/-- Counter value after n iterations of the loop, starting from the
initial value 0 (simple-test-service.py line 30). -/
def counterAfter : Nat → Nat
  | 0 => 0
  | n + 1 => nextCounter (counterAfter n)

/-- Heartbeat message printed by each iteration of the loop body
(simple-test-service.py lines 33-37). -/
def message (counter : Nat) (ts : String) : String :=
  "服务运行中 - 计数器: " ++ (toString counter ++ (", 时间: " ++ ts))

/-- Exit behaviour of simple-test-service.py main() as a function of the
argument list and of the iteration (if any) at which an asynchronous
KeyboardInterrupt arrives: with no interrupt the loop never returns
(lines 31-47), and on interrupt the handler logs and falls through, so
the process exits with the interpreter default code 0 (lines 49-55).
The script never reads its arguments and never calls sys.exit. -/
def exitBehavior (args : List String) (interrupt : Option Nat) : Option Int :=
  match interrupt with
  | none => none
  | some _ => some 0

end SimpleTestService

namespace TestService

/-- Loop condition of the main loop of test_service.py line 40: the
literal True, whatever the counter value. -/
def loopGuard (counter : Nat) : Bool := true

/-- Counter update performed by one iteration of the loop body
(test_service.py line 41). -/
def nextCounter (counter : Nat) : Nat := counter + 1

/-- Counter value after n iterations of the loop, starting from the
initial value 0 (test_service.py line 39). -/
def counterAfter : Nat → Nat
  | 0 => 0
  | n + 1 => nextCounter (counterAfter n)

/-- Heartbeat line produced by each iteration of the loop body of
test_service.py line 42, rendered through the logging format
asctime - levelname - message configured at lines 15-22. -/
def message (counter : Nat) (ts : String) : String :=
  ts ++ (" - INFO - 服务运行中... (计数: " ++ (toString counter ++ ")"))

/-- Exit behaviour of test_service.py main() as a function of the
argument list and of the iteration (if any) at which an asynchronous
KeyboardInterrupt arrives: with no interrupt the loop never returns
(lines 40-58), and on interrupt the handler logs and falls through, so
the process exits with the interpreter default code 0 (lines 60-65).
The script never reads its arguments and never calls sys.exit. -/
def exitBehavior (args : List String) (interrupt : Option Nat) : Option Int :=
  match interrupt with
  | none => none
  | some _ => some 0

end TestService

namespace Supervisor

/-- Modelled from the spec: the supervisor's action decided from an exit
code. The supervisor component is not present in the repository; the spec
lists the actions Restart, RestartWithBackoff and Stop. -/
inductive Action where
  | Restart
  | RestartWithBackoff
  | Stop
deriving DecidableEq

/-- Modelled from the spec: an ExitPolicy maps exit codes to actions; the
only configurable part beyond the fixed rules for 99 and 0 is an explicit
whitelist of further codes that trigger a restart. -/
structure ExitPolicy where
  whitelist : Int → Bool

/-- Modelled from the spec: the default policy whitelists no extra exit
code for restart. -/
def defaultPolicy : ExitPolicy := ⟨fun _ => false⟩

/-- Modelled from the spec: Classify(code, policy), the pure decision
function. Exit code 99 means Restart; exit code 0 means Stop; any other
code means Stop unless the policy explicitly whitelists it for restart. -/
def Classify (code : Int) (p : ExitPolicy) : Action :=
  if code = 99 then Action.Restart
  else if code = 0 then Action.Stop
  else if p.whitelist code then Action.Restart
  else Action.Stop

/-- Whether an action asks for the child to be started again. -/
def restartsAction (a : Action) : Bool :=
  match a with
  | Action.Stop => false
  | Action.Restart => true
  | Action.RestartWithBackoff => true

/-- Modelled from the spec: a ChildSpec names the executable and its
arguments; it is immutable once supervision starts. -/
structure ChildSpec where
  path : String
  args : List String

/-- Modelled from the spec: the final status Supervise reports — a clean
or error stop with the last exit code, a stop forced by an external stop
request, the RestartStormError raised when the restart budget is
exceeded, or the LaunchError raised when the executable cannot be
spawned. -/
inductive SuperviseResult where
  | stopped (code : Int)
  | stoppedOnRequest
  | restartStormError
  | launchError
deriving DecidableEq

/-- Counts reported by a supervision run: total successful launches,
restarts performed, and the final status. -/
structure SuperviseStats where
  launches : Nat
  restarts : Nat
  result : SuperviseResult
deriving DecidableEq

/-- Modelled from the spec: the Start - Wait - Classify control loop of
Supervise. The behaviour of the supervised program is the function prog
giving the exit code of its n-th launch; l counts the launches already
performed; budget is the remaining number of allowed restarts within the
configured window, after which a demanded restart raises
RestartStormError instead. -/
def superviseGo (prog : Nat → Int) (p : ExitPolicy) : Nat → Nat → SuperviseStats
  | l, 0 =>
    if restartsAction (Classify (prog l) p) then
      ⟨l + 1, l, SuperviseResult.restartStormError⟩
    else
      ⟨l + 1, l, SuperviseResult.stopped (prog l)⟩
  | l, b + 1 =>
    if restartsAction (Classify (prog l) p) then
      superviseGo prog p (l + 1) b
    else
      ⟨l + 1, l, SuperviseResult.stopped (prog l)⟩

/-- Modelled from the spec: Supervise(spec, policy). The environment env
tells whether a path can be found and spawned; when the first Start
fails, Supervise reports LaunchError with zero launches and zero restart
attempts, otherwise it runs the control loop with the configured
maximum restart count. -/
def Supervise (spec : ChildSpec) (env : String → Bool) (p : ExitPolicy)
    (prog : Nat → Int) (maxRestarts : Nat) : SuperviseStats :=
  if env spec.path then superviseGo prog p 0 maxRestarts
  else ⟨0, 0, SuperviseResult.launchError⟩

/-- Modelled from the spec: the supervision state machine
Idle - Starting - Running - Exited - (Restarting - Starting) | Stopped. -/
inductive Phase where
  | idle
  | starting
  | running
  | exited
  | restarting
  | stopped
deriving DecidableEq

/-- A supervisor state: the phase of the state machine together with the
number of live child processes owned by this supervisor instance. -/
structure SupState where
  phase : Phase
  live : Nat
deriving DecidableEq

/-- Modelled from the spec: the transitions of the supervision state
machine. Spawning happens on Starting to Running and adds a live child;
Running to Exited happens only on child termination, where Wait reaps
the dead child; the decision transitions out of Exited do not touch
processes. -/
inductive Step : SupState → SupState → Prop where
  | startCmd (n : Nat) : Step ⟨Phase.idle, n⟩ ⟨Phase.starting, n⟩
  | spawn (n : Nat) : Step ⟨Phase.starting, n⟩ ⟨Phase.running, n + 1⟩
  | childExit (n : Nat) : Step ⟨Phase.running, n + 1⟩ ⟨Phase.exited, n⟩
  | decideRestart (n : Nat) : Step ⟨Phase.exited, n⟩ ⟨Phase.restarting, n⟩
  | relaunch (n : Nat) : Step ⟨Phase.restarting, n⟩ ⟨Phase.starting, n⟩
  | decideStop (n : Nat) : Step ⟨Phase.exited, n⟩ ⟨Phase.stopped, n⟩

/-- The initial supervisor state: Idle with no live child. -/
def initState : SupState := ⟨Phase.idle, 0⟩

/-- States reachable from the initial state by supervisor transitions. -/
inductive Reachable : SupState → Prop where
  | init : Reachable initState
  | step {s t : SupState} : Reachable s → Step s t → Reachable t

/-- The number of live children a state of each phase owns: exactly one
while Running, none otherwise. -/
def phaseLive : Phase → Nat
  | Phase.running => 1
  | _ => 0

/-- How the child ends after an external stop request: it exits on its
own within the grace period, or it is force-killed. -/
inductive StopMode where
  | graceful
  | forcedKill
deriving DecidableEq

/-- Outcome of an external stop request: whether the graceful signal was
sent, how long the supervisor waited, how the child ended, what
Supervise returned, and how many restarts were attempted. -/
structure StopOutcome where
  signaled : Bool
  waited : Nat
  mode : StopMode
  result : SuperviseResult
  restartAttempts : Nat
deriving DecidableEq

/-- Modelled from the spec: whether the child is still alive t time units
after the graceful signal, given that it exits on its own exitsAfter
units after the signal (none when it ignores the signal). -/
def aliveAfterSignal (exitsAfter : Option Nat) (t : Nat) : Bool :=
  match exitsAfter with
  | some d => decide (t < d)
  | none => true

/-- Modelled from the spec: the stop-request sequence issued while the
child is running — graceful signal, wait until the child exits or at
most the grace period, force-kill if still alive, and return the
stopped-on-request status without attempting a restart. -/
def handleStopRequest (grace : Nat) (exitsAfter : Option Nat) : StopOutcome :=
  match exitsAfter with
  | some d =>
    if d ≤ grace then
      ⟨true, d, StopMode.graceful, SuperviseResult.stoppedOnRequest, 0⟩
    else
      ⟨true, grace, StopMode.forcedKill, SuperviseResult.stoppedOnRequest, 0⟩
  | none => ⟨true, grace, StopMode.forcedKill, SuperviseResult.stoppedOnRequest, 0⟩

end Supervisor

/-- Behaviour of a supervised program that exits with code 99 on each of
its first three launches and with code 0 on any later launch. -/
def exit99ThreeTimes (n : Nat) : Int := if n < 3 then 99 else 0

/-- Whether a script-level function of the argument list actually depends
on the arguments: two argument lists on which it differs exist. -/
def dependsOnArgs {α : Type} (f : List String → α) : Prop :=
  ∃ a b, f a ≠ f b

/-- Whether every line the loop prints carries its timestamp verbatim,
for every iteration. -/
def timestampInLine (line : Nat → String → String) : Prop :=
  ∀ i ts, ∃ pre post, line i ts = pre ++ (ts ++ post)

/-- Formalization of the sentence that each of the three scripts both
prints a timestamped heartbeat in a loop and exits with a configurable
exit code. -/
def eachScriptHeartbeatAndConfigurableExit : Prop :=
  timestampInLine TestRestartApp.stepLine ∧
  dependsOnArgs TestRestartApp.exitOf ∧
  timestampInLine SimpleTestService.message ∧
  dependsOnArgs SimpleTestService.exitBehavior ∧
  timestampInLine TestService.message ∧
  dependsOnArgs TestService.exitBehavior

/-- A concrete ChildSpec used to instantiate the supervision theorems. -/
def sampleSpec : Supervisor.ChildSpec := ⟨"TestRestartApp.py", []⟩

/-- An environment in which every executable can be found and spawned. -/
def envAll : String → Bool := fun _ => true

/-- An environment in which no executable can be found. -/
def envNone : String → Bool := fun _ => false

/-- The argument string used to exercise the integer parse. -/
def argSeven : String := "7"

/-- Appending the data of two strings is appending the strings. -/
theorem string_mk_append (a b : List Char) :
    (String.mk a ++ String.mk b) = String.mk (a ++ b) := rfl

/-- String append is associative. -/
theorem string_append_assoc (a b c : String) :
    a ++ b ++ c = a ++ (b ++ c) := by
  cases a; cases b; cases c
  exact congrArg String.mk (List.append_assoc _ _ _)

/-- The empty string is a right identity for append. -/
theorem string_append_empty (a : String) : a ++ "" = a := by
  cases a
  exact congrArg String.mk (List.append_nil _)

/-- The empty string is a left identity for append. -/
theorem string_empty_append (a : String) : "" ++ a = a := by
  cases a
  exact congrArg String.mk (List.nil_append _)

/-- The counter of simple-test-service.py counts the iterations. -/
theorem simple_counterAfter_eq (n : Nat) :
    SimpleTestService.counterAfter n = n := by
  induction n with
  | zero => rfl
  | succ n ih =>
    simp [SimpleTestService.counterAfter, SimpleTestService.nextCounter, ih]

/-- The counter of test_service.py counts the iterations. -/
theorem testservice_counterAfter_eq (n : Nat) :
    TestService.counterAfter n = n := by
  induction n with
  | zero => rfl
  | succ n ih =>
    simp [TestService.counterAfter, TestService.nextCounter, ih]

/-- Exit code 99 is classified as a restart under every policy. -/
theorem classify99_restarts (p : Supervisor.ExitPolicy) :
    Supervisor.restartsAction (Supervisor.Classify 99 p) = true := by
  simp [Supervisor.Classify, Supervisor.restartsAction]

/-- Exit code 0 is classified as a stop under every policy. -/
theorem classify0_stops (p : Supervisor.ExitPolicy) :
    Supervisor.restartsAction (Supervisor.Classify 0 p) = false := by
  simp [Supervisor.Classify, Supervisor.restartsAction]

/-- One restart step of the control loop when the current exit code is
classified for restart and budget remains. -/
theorem superviseGo_restart_step (prog : Nat → Int) (p : Supervisor.ExitPolicy)
    (l b : Nat)
    (h : Supervisor.restartsAction (Supervisor.Classify (prog l) p) = true) :
    Supervisor.superviseGo prog p l (b + 1) =
      Supervisor.superviseGo prog p (l + 1) b := by
  simp [Supervisor.superviseGo, h]

/-- The control loop stops as soon as the current exit code is classified
for stop, whatever budget remains. -/
theorem superviseGo_stop_step (prog : Nat → Int) (p : Supervisor.ExitPolicy)
    (l b : Nat)
    (h : Supervisor.restartsAction (Supervisor.Classify (prog l) p) = false) :
    Supervisor.superviseGo prog p l b =
      ⟨l + 1, l, Supervisor.SuperviseResult.stopped (prog l)⟩ := by
  cases b <;> simp [Supervisor.superviseGo, h]

/-- A program that always exits 99 exhausts the whole restart budget and
ends in RestartStormError. -/
theorem superviseGo_always99 (p : Supervisor.ExitPolicy) :
    ∀ b l, Supervisor.superviseGo (fun _ => 99) p l b =
      ⟨l + b + 1, l + b, Supervisor.SuperviseResult.restartStormError⟩ := by
  intro b
  induction b with
  | zero =>
    intro l
    simp [Supervisor.superviseGo, Supervisor.Classify, Supervisor.restartsAction]
  | succ b ih =>
    intro l
    rw [superviseGo_restart_step _ p l b (classify99_restarts p), ih (l + 1)]
    simp [Supervisor.SuperviseStats.mk.injEq]
    omega

/-- Running the 99-99-99-0 program from launch 0 with at least three
restarts of budget gives four launches, three restarts and a clean stop. -/
theorem superviseGo_exit99_start (p : Supervisor.ExitPolicy) (b : Nat) :
    Supervisor.superviseGo exit99ThreeTimes p 0 (b + 3) =
      ⟨4, 3, Supervisor.SuperviseResult.stopped 0⟩ := by
  rw [show b + 3 = b + 2 + 1 from rfl,
    superviseGo_restart_step _ p 0 (b + 2) (classify99_restarts p),
    show b + 2 = b + 1 + 1 from rfl,
    superviseGo_restart_step _ p (0 + 1) (b + 1) (classify99_restarts p),
    superviseGo_restart_step _ p (0 + 1 + 1) b (classify99_restarts p)]
  exact superviseGo_stop_step _ p (0 + 1 + 1 + 1) b (classify0_stops p)

/-- Every reachable supervisor state owns exactly the live children its
phase prescribes. -/
theorem reachable_live_eq (s : Supervisor.SupState) (h : Supervisor.Reachable s) :
    s.live = Supervisor.phaseLive s.phase := by
  induction h with
  | init => rfl
  | step hr hs ih =>
    cases hs <;> simp [Supervisor.phaseLive] at ih ⊢ <;> omega

/-- C1: Classify is a pure function of the exit code and the policy;
under the default policy exit code 99 yields Restart and exit code 0
yields Stop, and any other code yields Stop under every policy that does
not whitelist it for restart. -/
theorem classify_default_decision (c : Int) (p : Supervisor.ExitPolicy) :
    (c = 99 → Supervisor.Classify c Supervisor.defaultPolicy =
      Supervisor.Action.Restart) ∧
    (c = 0 → Supervisor.Classify c Supervisor.defaultPolicy =
      Supervisor.Action.Stop) ∧
    (c ≠ 99 → c ≠ 0 → p.whitelist c = false →
      Supervisor.Classify c p = Supervisor.Action.Stop) := by
  refine ⟨fun h => ?_, fun h => ?_, fun h1 h2 h3 => ?_⟩
  · subst h; decide
  · subst h; decide
  · simp [Supervisor.Classify, h1, h2, h3]

/-- Witness for the C1 theorem at exit code 5 under the default policy. -/
theorem classify_default_decision_witness :
    Supervisor.Classify 5 Supervisor.defaultPolicy = Supervisor.Action.Stop :=
  (classify_default_decision 5 Supervisor.defaultPolicy).2.2
    (by decide) (by decide) rfl

/-- C2: when the supervised program exits with code 99 exactly three
times and then with code 0, and the restart budget allows at least three
restarts, Supervise restarts the child exactly three times and then
stops cleanly, for a total of exactly four launches. -/
theorem supervise_three_then_stop (spec : Supervisor.ChildSpec)
    (env : String → Bool) (p : Supervisor.ExitPolicy) (m : Nat)
    (henv : env spec.path = true) (hm : 3 ≤ m) :
    Supervisor.Supervise spec env p exit99ThreeTimes m =
      ⟨4, 3, Supervisor.SuperviseResult.stopped 0⟩ := by
  obtain ⟨k, rfl⟩ : ∃ k, m = k + 3 := ⟨m - 3, by omega⟩
  simp only [Supervisor.Supervise, henv, if_true]
  exact superviseGo_exit99_start p k

/-- Witness for the C2 theorem with a concrete spec, an environment that
spawns everything, and a budget of exactly three restarts. -/
theorem supervise_three_then_stop_witness :
    Supervisor.Supervise sampleSpec envAll Supervisor.defaultPolicy
      exit99ThreeTimes 3 = ⟨4, 3, Supervisor.SuperviseResult.stopped 0⟩ :=
  supervise_three_then_stop sampleSpec envAll Supervisor.defaultPolicy 3 rfl
    (by decide)

/-- C3: a program that always exits 99 is restarted no more than
maxRestarts times, after which supervision halts and RestartStormError
is surfaced to the caller. -/
theorem supervise_restart_storm (spec : Supervisor.ChildSpec)
    (env : String → Bool) (p : Supervisor.ExitPolicy) (m : Nat)
    (henv : env spec.path = true) :
    (Supervisor.Supervise spec env p (fun _ => 99) m).restarts ≤ m ∧
    (Supervisor.Supervise spec env p (fun _ => 99) m).result =
      Supervisor.SuperviseResult.restartStormError := by
  have h : Supervisor.Supervise spec env p (fun _ => 99) m =
      ⟨0 + m + 1, 0 + m, Supervisor.SuperviseResult.restartStormError⟩ := by
    simp only [Supervisor.Supervise, henv, if_true]
    exact superviseGo_always99 p m 0
  rw [h]
  refine ⟨?_, rfl⟩
  show 0 + m ≤ m
  omega

/-- Witness for the C3 theorem with a concrete spec and a budget of two
restarts. -/
theorem supervise_restart_storm_witness :
    (Supervisor.Supervise sampleSpec envAll Supervisor.defaultPolicy
      (fun _ => 99) 2).restarts ≤ 2 ∧
    (Supervisor.Supervise sampleSpec envAll Supervisor.defaultPolicy
      (fun _ => 99) 2).result =
      Supervisor.SuperviseResult.restartStormError :=
  supervise_restart_storm sampleSpec envAll Supervisor.defaultPolicy 2 rfl

/-- C4: when the executable cannot be found or spawned, Supervise fails
with LaunchError, with zero launches and zero restart attempts. -/
theorem supervise_launch_error (spec : Supervisor.ChildSpec)
    (env : String → Bool) (p : Supervisor.ExitPolicy) (prog : Nat → Int)
    (m : Nat) (henv : env spec.path = false) :
    (Supervisor.Supervise spec env p prog m).result =
      Supervisor.SuperviseResult.launchError ∧
    (Supervisor.Supervise spec env p prog m).restarts = 0 ∧
    (Supervisor.Supervise spec env p prog m).launches = 0 := by
  simp [Supervisor.Supervise, henv]

/-- Witness for the C4 theorem in an environment where nothing can be
spawned. -/
theorem supervise_launch_error_witness :
    (Supervisor.Supervise sampleSpec envNone Supervisor.defaultPolicy
      (fun _ => 99) 5).result = Supervisor.SuperviseResult.launchError ∧
    (Supervisor.Supervise sampleSpec envNone Supervisor.defaultPolicy
      (fun _ => 99) 5).restarts = 0 ∧
    (Supervisor.Supervise sampleSpec envNone Supervisor.defaultPolicy
      (fun _ => 99) 5).launches = 0 :=
  supervise_launch_error sampleSpec envNone Supervisor.defaultPolicy
    (fun _ => 99) 5 rfl

/-- C5: every reachable supervisor state has at most one live child, and
the states from which a spawn occurs (Starting, also when reached
through Restarting) hold no live child: the previous child is fully
reaped before the next launch. -/
theorem supervise_single_live_child (s : Supervisor.SupState)
    (h : Supervisor.Reachable s) :
    s.live ≤ 1 ∧
    (s.phase = Supervisor.Phase.starting → s.live = 0) ∧
    (s.phase = Supervisor.Phase.restarting → s.live = 0) := by
  have hinv := reachable_live_eq s h
  rw [hinv]
  cases hph : s.phase <;> simp [hph, Supervisor.phaseLive]

/-- Witness for the C5 theorem at the Starting state reached after one
full restart cycle from the initial state. -/
theorem supervise_single_live_child_witness :
    (⟨Supervisor.Phase.starting, 0⟩ : Supervisor.SupState).live ≤ 1 ∧
    ((⟨Supervisor.Phase.starting, 0⟩ : Supervisor.SupState).phase =
      Supervisor.Phase.starting →
      (⟨Supervisor.Phase.starting, 0⟩ : Supervisor.SupState).live = 0) ∧
    ((⟨Supervisor.Phase.starting, 0⟩ : Supervisor.SupState).phase =
      Supervisor.Phase.restarting →
      (⟨Supervisor.Phase.starting, 0⟩ : Supervisor.SupState).live = 0) :=
  supervise_single_live_child ⟨Supervisor.Phase.starting, 0⟩
    (Supervisor.Reachable.step
      (Supervisor.Reachable.step
        (Supervisor.Reachable.step
          (Supervisor.Reachable.step
            (Supervisor.Reachable.step Supervisor.Reachable.init
              (Supervisor.Step.startCmd 0))
            (Supervisor.Step.spawn 0))
          (Supervisor.Step.childExit 0))
        (Supervisor.Step.decideRestart 0))
      (Supervisor.Step.relaunch 0))

/-- C6: a program that always exits 0 is launched exactly once and then
stopped cleanly, with no restart, whatever the policy and the budget. -/
theorem supervise_clean_exit_once (spec : Supervisor.ChildSpec)
    (env : String → Bool) (p : Supervisor.ExitPolicy) (m : Nat)
    (henv : env spec.path = true) :
    Supervisor.Supervise spec env p (fun _ => 0) m =
      ⟨1, 0, Supervisor.SuperviseResult.stopped 0⟩ := by
  simp only [Supervisor.Supervise, henv, if_true]
  exact superviseGo_stop_step _ p 0 m (classify0_stops p)

/-- Witness for the C6 theorem with a concrete spec and budget. -/
theorem supervise_clean_exit_once_witness :
    Supervisor.Supervise sampleSpec envAll Supervisor.defaultPolicy
      (fun _ => 0) 5 = ⟨1, 0, Supervisor.SuperviseResult.stopped 0⟩ :=
  supervise_clean_exit_once sampleSpec envAll Supervisor.defaultPolicy 5 rfl

/-- C7: on an external stop request the child receives the graceful
signal, the supervisor waits at most the grace period and force-kills a
child that is still alive at its end, no restart is attempted, and
Supervise returns the stopped status. -/
theorem stop_request_graceful_then_kill (grace : Nat) (exitsAfter : Option Nat) :
    (Supervisor.handleStopRequest grace exitsAfter).signaled = true ∧
    (Supervisor.handleStopRequest grace exitsAfter).waited ≤ grace ∧
    (Supervisor.handleStopRequest grace exitsAfter).result =
      Supervisor.SuperviseResult.stoppedOnRequest ∧
    (Supervisor.handleStopRequest grace exitsAfter).restartAttempts = 0 ∧
    (Supervisor.aliveAfterSignal exitsAfter grace = true →
      (Supervisor.handleStopRequest grace exitsAfter).mode =
        Supervisor.StopMode.forcedKill) := by
  cases exitsAfter with
  | none => simp [Supervisor.handleStopRequest]
  | some d =>
    by_cases h : d ≤ grace <;>
      simp [Supervisor.handleStopRequest, Supervisor.aliveAfterSignal, h] <;>
      try omega

/-- Witness for the C7 theorem with grace period two and a child that
ignores the signal. -/
theorem stop_request_graceful_then_kill_witness :
    (Supervisor.handleStopRequest 2 none).signaled = true ∧
    (Supervisor.handleStopRequest 2 none).waited ≤ 2 ∧
    (Supervisor.handleStopRequest 2 none).result =
      Supervisor.SuperviseResult.stoppedOnRequest ∧
    (Supervisor.handleStopRequest 2 none).restartAttempts = 0 ∧
    (Supervisor.aliveAfterSignal none 2 = true →
      (Supervisor.handleStopRequest 2 none).mode =
        Supervisor.StopMode.forcedKill) :=
  stop_request_graceful_then_kill 2 none

/-- C8 as stated is false: the two service scripts have no configurable
exit code, so the conjunction over the three scripts does not hold. -/
theorem scripts_configurable_exit_refuted :
    ¬ eachScriptHeartbeatAndConfigurableExit := by
  intro h
  obtain ⟨a, b, hab⟩ := h.2.2.2.1
  exact hab rfl

/-- C8 amended: TestRestartApp prints timestamped lines in its loop and
exits with a configurable exit code, while the two service scripts print
a timestamped heartbeat in a loop but do not exit with a configurable
exit code. -/
theorem scripts_heartbeat_and_exit :
    timestampInLine TestRestartApp.stepLine ∧
    dependsOnArgs TestRestartApp.exitOf ∧
    timestampInLine SimpleTestService.message ∧
    ¬ dependsOnArgs SimpleTestService.exitBehavior ∧
    timestampInLine TestService.message ∧
    ¬ dependsOnArgs TestService.exitBehavior := by
  refine ⟨?_, ?_, ?_, ?_, ?_, ?_⟩
  · intro i ts
    exact ⟨"[", "] " ++ ("Processing step " ++ (toString i ++ "/5...")), rfl⟩
  · exact ⟨[argSeven], [], by decide⟩
  · intro i ts
    refine ⟨"服务运行中 - 计数器: " ++ (toString i ++ ", 时间: "), "", ?_⟩
    simp [SimpleTestService.message, string_append_empty, string_append_assoc]
  · rintro ⟨a, b, hab⟩
    exact hab rfl
  · intro i ts
    refine ⟨"", " - INFO - 服务运行中... (计数: " ++ (toString i ++ ")"), ?_⟩
    rw [string_empty_append]
    rfl
  · rintro ⟨a, b, hab⟩
    exact hab rfl

/-- C9: TestRestartApp exits with int(argv[1]) when a first argument is
given and parses as an integer, and with 99 when the argument is absent
or fails to parse (the ValueError fallback). -/
theorem testrestartapp_exit_code (parse : String → Option Int) (a : String)
    (rest : List String) (n : Int) :
    TestRestartApp.mainExit parse [] = 99 ∧
    (parse a = some n → TestRestartApp.mainExit parse (a :: rest) = n) ∧
    (parse a = none → TestRestartApp.mainExit parse (a :: rest) = 99) := by
  refine ⟨rfl, fun h => ?_, fun h => ?_⟩ <;> simp [TestRestartApp.mainExit, h]

/-- Witness for the C9 theorem: with argument string 7 the exit code is
the parsed integer 7. -/
theorem testrestartapp_exit_code_witness :
    TestRestartApp.mainExit pyIntOpt [argSeven] = 7 :=
  (testrestartapp_exit_code pyIntOpt argSeven [] 7).2.1 (by decide)

/-- C10: the main loops of the two service scripts never terminate
normally — the guard is re-entered at every iteration count — the
scripts return only on an interrupt, and their exit code is then the
interpreter default 0, independent of the arguments; neither script
sets a configurable exit code. -/
theorem service_scripts_never_exit (n k : Nat) (a b : List String)
    (i : Option Nat) :
    SimpleTestService.loopGuard (SimpleTestService.counterAfter n) = true ∧
    TestService.loopGuard (TestService.counterAfter n) = true ∧
    SimpleTestService.exitBehavior a none = none ∧
    TestService.exitBehavior a none = none ∧
    SimpleTestService.exitBehavior a (some k) = some 0 ∧
    TestService.exitBehavior a (some k) = some 0 ∧
    SimpleTestService.exitBehavior a i = SimpleTestService.exitBehavior b i ∧
    TestService.exitBehavior a i = TestService.exitBehavior b i :=
  ⟨rfl, rfl, rfl, rfl, rfl, rfl, rfl, rfl⟩
